import Mathlib

/-!
Shallow embedding of the grule-exploration country-music recommendation
program (src/unnamed/part_000 first program, with the earlier iteration in
src/country.go embedded separately where it differs).

Conventions of the embedding:
* Go maps that the program only ever reads/writes by key are modelled as
  insertion-ordered association lists (`List (String × _)`); writing to an
  existing key replaces the value in place, writing a fresh key appends.
* Go `panic` (reached via `GetField` returning an error) is modelled by the
  `Except String` monad: a `.error` value is an aborted computation.
* Go `int` is modelled by `Int` (the scores involved are tiny; overflow is
  irrelevant to every claim considered here).
* The nondeterministic iteration order of a Go map is made explicit: functions
  that iterate a map receive the entry sequence as a parameter, and claims
  about "the map" quantify over permutations of its insertion-ordered entries.
-/

/-- Catalog record, from `CountryMusicDocument` in the source. The `Themes`
map is an insertion-ordered association list from theme name to description. -/
structure CountryMusicDocument where
  RuleID : String
  Artist : String
  Title : String
  LyricQuote : String
  VideoLink : String
  Themes : List (String × String)
deriving DecidableEq, Repr

/-- User preference record, from `UserSelections` in the source: one boolean
per vocabulary theme plus the per-request score accumulator. -/
structure UserSelections where
  Adventure : Bool
  America : Bool
  CarsTrucksTractors : Bool
  Goodtimes : Bool
  Grit : Bool
  Home : Bool
  Love : Bool
  HeartBreak : Bool
  Lessons : Bool
  Rebellion : Bool
  Recommendations : List (String × Int)
deriving DecidableEq, Repr

/-- The ten theme names that are boolean fields of `UserSelections`. -/
def themeVocab : List String :=
  ["Adventure", "America", "CarsTrucksTractors", "Goodtimes", "Grit",
   "Home", "Love", "HeartBreak", "Lessons", "Rebellion"]

/-- Embedding of `(p *UserSelections) GetField`: reflective field lookup by
exact (case-sensitive) name. A name that matches no field yields the
does-not-exist error; `Recommendations` exists but is not a boolean. -/
def GetField (sel : UserSelections) (fieldName : String) : Except String Bool :=
  match fieldName with
  | "Adventure" => .ok sel.Adventure
  | "America" => .ok sel.America
  | "CarsTrucksTractors" => .ok sel.CarsTrucksTractors
  | "Goodtimes" => .ok sel.Goodtimes
  | "Grit" => .ok sel.Grit
  | "Home" => .ok sel.Home
  | "Love" => .ok sel.Love
  | "HeartBreak" => .ok sel.HeartBreak
  | "Lessons" => .ok sel.Lessons
  | "Rebellion" => .ok sel.Rebellion
  | "Recommendations" => .error ("field " ++ fieldName ++ " is not a boolean")
  | _ => .error ("field " ++ fieldName ++ " does not exist")

/-- Embedding of `(p *UserSelections) IsSongThemeMatch`: scans the theme list,
panics (errors) as soon as `GetField` fails, returns true at the first
selected theme. The `songId` argument is only printed by the source. -/
def IsSongThemeMatch (sel : UserSelections) (songId : String) :
    List String → Except String Bool
  | [] => .ok false
  | t :: ts =>
    match GetField sel t with
    | .error e => .error e
    | .ok true => .ok true
    | .ok false => IsSongThemeMatch sel songId ts

/-- Match-counting loop of `SetRecommendations`: counts themes whose field is
true, panicking (erroring) at the first theme `GetField` rejects. -/
def countMatchesE (sel : UserSelections) : List String → Except String Nat
  | [] => .ok 0
  | t :: ts =>
    match GetField sel t with
    | .error e => .error e
    | .ok b =>
      match countMatchesE sel ts with
      | .error e => .error e
      | .ok m => .ok (m + if b then 1 else 0)

/-- Go map assignment `m[k] = v` on an insertion-ordered association list:
replace in place when the key is present, append otherwise. -/
def updateAssoc : List (String × Int) → String → Int → List (String × Int)
  | [], k, v => [(k, v)]
  | (k0, v0) :: rest, k, v =>
    if k0 = k then (k, v) :: rest else (k0, v0) :: updateAssoc rest k v

/-- Embedding of `(p *UserSelections) SetRecommendations` from
src/unnamed/part_000: count matches, scale by 10, subtract the
unselected-theme penalty `len(songThemes) - matchCount*10`, store the result
under `songId` and return it together with the updated record. -/
def SetRecommendations (sel : UserSelections) (songId : String)
    (songThemes : List String) : Except String (UserSelections × Int) :=
  match countMatchesE sel songThemes with
  | .error e => .error e
  | .ok m =>
    let raw : Int := (m : Int) * 10
    let penalized : Int := raw - ((songThemes.length : Int) - raw)
    .ok ({ sel with Recommendations := updateAssoc sel.Recommendations songId penalized },
         penalized)

namespace Country

/-- Embedding of `(p *UserSelections) SetRecommendations` from the earlier
iteration in src/country.go: it stores and returns the bare match count,
with no scaling and no penalty term. -/
def SetRecommendations (sel : UserSelections) (songId : String)
    (songThemes : List String) : Except String (UserSelections × Int) :=
  match countMatchesE sel songThemes with
  | .error e => .error e
  | .ok m =>
    .ok ({ sel with Recommendations := updateAssoc sel.Recommendations songId (m : Int) },
         (m : Int))

end Country

/-- Boolean view of the ten vocabulary fields, used to state what the
reflective `GetField` computes on vocabulary names. -/
def isSelected (sel : UserSelections) (t : String) : Bool :=
  match t with
  | "Adventure" => sel.Adventure
  | "America" => sel.America
  | "CarsTrucksTractors" => sel.CarsTrucksTractors
  | "Goodtimes" => sel.Goodtimes
  | "Grit" => sel.Grit
  | "Home" => sel.Home
  | "Love" => sel.Love
  | "HeartBreak" => sel.HeartBreak
  | "Lessons" => sel.Lessons
  | "Rebellion" => sel.Rebellion
  | _ => false

/-- Embedding of `capitalizeFirstLetter`: uppercase the first character,
keep the rest (the Go original acts on the first byte; identical on ASCII). -/
def capitalizeFirstLetter (s : String) : String :=
  match s.data with
  | [] => s
  | c :: rest => String.mk (c.toUpper :: rest)

/-- Theme-argument list built by the `extractGrules` loop: keys of the
document whose description is non-empty, capitalized and double-quoted
(insertion order of the theme map). -/
def themesOf (doc : CountryMusicDocument) : List String :=
  (doc.Themes.filter (fun kv => kv.2 ≠ "")).map
    (fun kv => "\"" ++ capitalizeFirstLetter kv.1 ++ "\"")

/-- Text of the rule template before the interpolated title. -/
def ruleHeaderPre (doc : CountryMusicDocument) : String :=
  "rule Check" ++ doc.RuleID ++ " "

/-- Text of the rule template after the interpolated title. -/
def ruleBodyPost (doc : CountryMusicDocument) : String :=
  let tj := String.intercalate ", " (themesOf doc)
  let qid := "\"" ++ doc.RuleID ++ "\""
  " salience 10 \x7b\n            when\n               UserSelections.IsSongThemeMatch(" ++
    qid ++ ", " ++ tj ++
    ")\n            then\n               UserSelections.SetRecommendations(" ++
    qid ++ ", " ++ tj ++ ");\n               Retract(\"Check" ++ doc.RuleID ++
    "\");\n        \x7d"

/-- Rule text generated for one document by the `extractGrules` loop body
(the `fmt.Sprintf` of the source, written as the concatenation it denotes);
the title is spliced in verbatim between two double quotes. -/
def ruleFor (doc : CountryMusicDocument) : String :=
  ruleHeaderPre doc ++ "\"" ++ doc.Title ++ "\"" ++ ruleBodyPost doc

/-- Embedding of `extractGrules` before the final join: the loop appends one
rule text per document, unconditionally. -/
def extractGrulesList (documents : List CountryMusicDocument) : List String :=
  documents.map ruleFor

/-- Embedding of `extractGrules`: all rule texts joined by blank lines. -/
def extractGrules (documents : List CountryMusicDocument) : String :=
  String.intercalate "\n\n" (extractGrulesList documents)

/-- The double-quote character. -/
def dq : Char := '"'

/-- Text standing between the first and the second double quote of a string;
for a generated rule this is what a reader of the rule text sees as the
title string literal. -/
def quotedSegment (s : String) : String :=
  String.mk (((s.data.dropWhile (fun c => c ≠ dq)).drop 1).takeWhile (fun c => c ≠ dq))

/-- One step of the `sort.Slice` on recommendation entries, determinized as a
stable insertion placing an entry before the first entry of smaller-or-equal
score (the Go sort orders by `Value >` and leaves tie order unspecified). -/
def insertRecDesc (x : String × Int) : List (String × Int) → List (String × Int)
  | [] => [x]
  | y :: ys => if y.2 ≤ x.2 then x :: y :: ys else y :: insertRecDesc x ys

/-- Determinization of the `sort.Slice` call in `getTopNRecommendations`:
insertion sort, descending by score, over the map iteration sequence. -/
def sortRecsDesc : List (String × Int) → List (String × Int)
  | [] => []
  | x :: xs => insertRecDesc x (sortRecsDesc xs)

/-- Embedding of `getTopNRecommendations`: sort the entry sequence descending
by score, clamp `N` to the number of entries, return the first `N` keys.
The entry sequence parameter is the (nondeterministic) Go map iteration
order of `recommendations`. -/
def getTopNRecommendations (recommendations : List (String × Int)) (N : Nat) :
    List String :=
  let sortedList := sortRecsDesc recommendations
  let M := if sortedList.length < N then sortedList.length else N
  (sortedList.take M).map Prod.fst

/-- Embedding of `filterDocuments`: keep, in catalog order, the documents
whose `RuleID` is among the top rule ids (the Go `ruleIDMap` is a pure
membership test). -/
def filterDocuments (documents : List CountryMusicDocument)
    (topRuleIDs : List String) : List CountryMusicDocument :=
  documents.filter (fun doc => topRuleIDs.contains doc.RuleID)

/-- Lowercase theme-name lookup table built at the top of
`generateThemeUpdatedDocs`; a key that is not one of the ten lowercase
vocabulary names yields the Go zero value `false`. -/
def themeKeys (sel : UserSelections) (k : String) : Bool :=
  if k = "adventure" then sel.Adventure
  else if k = "america" then sel.America
  else if k = "carstruckstractors" then sel.CarsTrucksTractors
  else if k = "goodtimes" then sel.Goodtimes
  else if k = "grit" then sel.Grit
  else if k = "home" then sel.Home
  else if k = "love" then sel.Love
  else if k = "heartbreak" then sel.HeartBreak
  else if k = "lessons" then sel.Lessons
  else if k = "rebellion" then sel.Rebellion
  else false

/-- Inner loop of `generateThemeUpdatedDocs`: every theme key is kept; its
value is kept when the lowercased key is a selected theme and blanked
otherwise. -/
def updateThemes (sel : UserSelections) :
    List (String × String) → List (String × String)
  | [] => []
  | (theme, value) :: rest =>
    (theme, if themeKeys sel theme.toLower then value else "") ::
      updateThemes sel rest

/-- Embedding of `generateThemeUpdatedDocs`: rebuild each document with the
five metadata fields copied and the theme map passed through `updateThemes`. -/
def generateThemeUpdatedDocs :
    List CountryMusicDocument → UserSelections → List CountryMusicDocument
  | [], _ => []
  | doc :: rest, sel =>
    { RuleID := doc.RuleID, Artist := doc.Artist, Title := doc.Title,
      LyricQuote := doc.LyricQuote, VideoLink := doc.VideoLink,
      Themes := updateThemes sel doc.Themes } :: generateThemeUpdatedDocs rest sel

/-- Embedding of `filterDocumentsByRecommendations`: top-3 ids from the score
map, filter the catalog by those ids (catalog order), then redact themes. -/
def filterDocumentsByRecommendations (documents : List CountryMusicDocument)
    (sel : UserSelections) : List CountryMusicDocument :=
  let topRuleIDs := getTopNRecommendations sel.Recommendations 3
  let filteredDocs := filterDocuments documents topRuleIDs
  generateThemeUpdatedDocs filteredDocs sel

/-- Ordering relation of the determinized sort: an entry may stand before
another exactly when its score is at least the other one. -/
def recDescRel (a b : String × Int) : Prop := b.2 ≤ a.2

/-- Preference record with only the Home theme selected, used as a concrete
input in witnesses and counterexamples. -/
def selHome : UserSelections :=
  { Adventure := false, America := false, CarsTrucksTractors := false,
    Goodtimes := false, Grit := false, Home := true, Love := false,
    HeartBreak := false, Lessons := false, Rebellion := false,
    Recommendations := [] }

/-- Catalog document A of the pipeline counterexample. -/
def docA : CountryMusicDocument :=
  { RuleID := "A", Artist := "", Title := "", LyricQuote := "", VideoLink := "",
    Themes := [("home", "x")] }

/-- Catalog document B of the pipeline counterexample. -/
def docB : CountryMusicDocument :=
  { RuleID := "B", Artist := "", Title := "", LyricQuote := "", VideoLink := "",
    Themes := [("love", "y")] }

/-- Preference record whose score map holds A before B by insertion, with B
scoring higher. -/
def selC2 : UserSelections :=
  { selHome with Recommendations := [("A", 10), ("B", 50)] }

/-- Concrete document for the redaction witness: one selected theme (by a
differently-cased key), one unknown theme. -/
def docW : CountryMusicDocument :=
  { RuleID := "W", Artist := "a", Title := "t", LyricQuote := "l", VideoLink := "v",
    Themes := [("Home", "x"), ("weird", "z")] }

/-- Document whose only theme carries an empty description string. -/
def docEmptyThemes : CountryMusicDocument :=
  { RuleID := "E", Artist := "", Title := "T", LyricQuote := "", VideoLink := "",
    Themes := [("home", "")] }

/-- Document whose title contains double-quote characters. -/
def badTitleDoc : CountryMusicDocument :=
  { RuleID := "X", Artist := "", Title := "He said \"Hi\"", LyricQuote := "",
    VideoLink := "", Themes := [("home", "x")] }

/-- Document with a quote-free title. -/
def goodTitleDoc : CountryMusicDocument :=
  { RuleID := "Y", Artist := "", Title := "Plain", LyricQuote := "",
    VideoLink := "", Themes := [("home", "x")] }

/-- Theme list that satisfies the vocabulary precondition of claim C9 but
carries many repetitions of an unselected theme name. -/
def c9Themes : List String := "Home" :: List.replicate 21 "Love"

/-- Score value `matchCount*10 - (themeCount - matchCount*10) = 20*matchCount
- themeCount` as a function of the selections and the theme list, used to
state what `SetRecommendations` computes. -/
def scoreOf (sel : UserSelections) (songThemes : List String) : Int :=
  20 * (songThemes.countP (isSelected sel) : Int) - (songThemes.length : Int)

theorem getField_vocab (sel : UserSelections) (t : String) (ht : t ∈ themeVocab) :
    GetField sel t = .ok (isSelected sel t) := by
  fin_cases ht <;> rfl

theorem isSongThemeMatch_vocab (sel : UserSelections) (songId : String)
    (themes : List String) (hv : ∀ t ∈ themes, t ∈ themeVocab) :
    IsSongThemeMatch sel songId themes = .ok (themes.any (isSelected sel)) := by
  induction themes with
  | nil => rfl
  | cons t ts ih =>
    have ht := getField_vocab sel t (hv t (List.mem_cons_self t ts))
    have hts := ih fun x hx => hv x (List.mem_cons_of_mem t hx)
    by_cases hb : isSelected sel t = true
    · simp [IsSongThemeMatch, ht, hb]
    · simp only [Bool.not_eq_true] at hb
      simp [IsSongThemeMatch, ht, hb, hts]

theorem countMatchesE_vocab (sel : UserSelections) (themes : List String)
    (hv : ∀ t ∈ themes, t ∈ themeVocab) :
    countMatchesE sel themes = .ok (themes.countP (isSelected sel)) := by
  induction themes with
  | nil => rfl
  | cons t ts ih =>
    have ht := getField_vocab sel t (hv t (List.mem_cons_self t ts))
    have hts := ih fun x hx => hv x (List.mem_cons_of_mem t hx)
    simp [countMatchesE, ht, hts, List.countP_cons]

theorem setRec_eq (sel : UserSelections) (songId : String)
    (songThemes : List String) (hv : ∀ t ∈ songThemes, t ∈ themeVocab) :
    SetRecommendations sel songId songThemes =
      .ok ({ sel with Recommendations :=
               updateAssoc sel.Recommendations songId (scoreOf sel songThemes) },
           scoreOf sel songThemes) := by
  have hc := countMatchesE_vocab sel songThemes hv
  have harith : ((songThemes.countP (isSelected sel) : Int) * 10 -
      ((songThemes.length : Int) - (songThemes.countP (isSelected sel) : Int) * 10)) =
      scoreOf sel songThemes := by
    rw [scoreOf]
    ring
  simp [SetRecommendations, hc, harith]

theorem length_insertRecDesc (x : String × Int) (l : List (String × Int)) :
    (insertRecDesc x l).length = l.length + 1 := by
  induction l with
  | nil => rfl
  | cons y ys ih => by_cases h : y.2 ≤ x.2 <;> simp [insertRecDesc, h, ih]

theorem length_sortRecsDesc (l : List (String × Int)) :
    (sortRecsDesc l).length = l.length := by
  induction l with
  | nil => rfl
  | cons x xs ih => simp [sortRecsDesc, length_insertRecDesc, ih]

theorem mem_insertRecDesc (x z : String × Int) (l : List (String × Int)) :
    z ∈ insertRecDesc x l ↔ z = x ∨ z ∈ l := by
  induction l with
  | nil => simp [insertRecDesc]
  | cons y ys ih =>
    by_cases h : y.2 ≤ x.2
    · simp [insertRecDesc, h, List.mem_cons]
    · simp [insertRecDesc, h, List.mem_cons, ih]
      tauto

theorem pairwise_insertRecDesc (x : String × Int) (l : List (String × Int))
    (hl : l.Pairwise recDescRel) :
    (insertRecDesc x l).Pairwise recDescRel := by
  induction l with
  | nil => simp [insertRecDesc]
  | cons y ys ih =>
    rcases List.pairwise_cons.mp hl with ⟨hy, hys⟩
    by_cases h : y.2 ≤ x.2
    · rw [insertRecDesc, if_pos h]
      refine List.pairwise_cons.mpr ⟨?_, hl⟩
      intro z hz
      rcases List.mem_cons.mp hz with rfl | hz2
      · exact h
      · exact le_trans (hy z hz2) h
    · rw [insertRecDesc, if_neg h]
      push_neg at h
      refine List.pairwise_cons.mpr ⟨?_, ih hys⟩
      intro z hz
      rcases (mem_insertRecDesc x z ys).mp hz with rfl | hz2
      · exact le_of_lt h
      · exact hy z hz2

theorem sorted_sortRecsDesc (l : List (String × Int)) :
    (sortRecsDesc l).Pairwise recDescRel := by
  induction l with
  | nil => simp [sortRecsDesc]
  | cons x xs ih => exact pairwise_insertRecDesc x (sortRecsDesc xs) ih

theorem generateThemeUpdatedDocs_ruleIDs (ds : List CountryMusicDocument)
    (sel : UserSelections) :
    (generateThemeUpdatedDocs ds sel).map CountryMusicDocument.RuleID =
      ds.map CountryMusicDocument.RuleID := by
  induction ds with
  | nil => rfl
  | cons d rest ih => simp [generateThemeUpdatedDocs, ih]

theorem updateThemes_fst (sel : UserSelections) (ts : List (String × String)) :
    (updateThemes sel ts).map Prod.fst = ts.map Prod.fst := by
  induction ts with
  | nil => rfl
  | cons kv rest ih =>
    cases kv with
    | mk k v => simp [updateThemes, ih]

theorem updateThemes_mem (sel : UserSelections) (ts : List (String × String))
    (kv : String × String) (h : kv ∈ ts) :
    (kv.1, if themeKeys sel kv.1.toLower then kv.2 else "") ∈ updateThemes sel ts := by
  induction ts with
  | nil => cases h
  | cons p rest ih =>
    cases p with
    | mk k v =>
      rcases List.mem_cons.mp h with rfl | h2
      · simp [updateThemes]
      · exact List.mem_cons_of_mem _ (ih h2)

theorem updateThemes_idem (sel : UserSelections) (ts : List (String × String)) :
    updateThemes sel (updateThemes sel ts) = updateThemes sel ts := by
  induction ts with
  | nil => rfl
  | cons p rest ih =>
    cases p with
    | mk k v =>
      by_cases h : themeKeys sel k.toLower = true
      · simp [updateThemes, h, ih]
      · simp only [Bool.not_eq_true] at h
        simp [updateThemes, h, ih]

/-- C1 (amended): in src/unnamed/part_000, for vocabulary theme lists (the
only inputs on which the call returns instead of panicking),
`SetRecommendations` stores under `songId` and returns the value
`matchCount*10 - (themeCount - matchCount*10) = 20*matchCount - themeCount`.
The claim as frozen also covers the `SetRecommendations` of src/country.go,
which stores the bare match count; see the counterexample. -/
theorem setRecommendations_stores_scaled_penalized_score (sel : UserSelections)
    (songId : String) (songThemes : List String)
    (hv : ∀ t ∈ songThemes, t ∈ themeVocab) :
    SetRecommendations sel songId songThemes =
      .ok ({ sel with Recommendations :=
               updateAssoc sel.Recommendations songId (scoreOf sel songThemes) },
           scoreOf sel songThemes) ∧
    scoreOf sel songThemes =
      (songThemes.countP (isSelected sel) : Int) * 10 -
        ((songThemes.length : Int) - (songThemes.countP (isSelected sel) : Int) * 10) := by
  refine ⟨setRec_eq sel songId songThemes hv, ?_⟩
  rw [scoreOf]
  ring

/-- C1 witness: the rule for a two-theme document with one selected theme
stores and returns 20*1 - 2 = 18. -/
theorem setRecommendations_stores_scaled_penalized_score_witness :
    (SetRecommendations selHome "S" ["Home", "Love"] =
      .ok ({ selHome with Recommendations :=
               updateAssoc selHome.Recommendations "S" (scoreOf selHome ["Home", "Love"]) },
           scoreOf selHome ["Home", "Love"]) ∧
    scoreOf selHome ["Home", "Love"] =
      ((["Home", "Love"] : List String).countP (isSelected selHome) : Int) * 10 -
        (((["Home", "Love"] : List String).length : Int) -
          ((["Home", "Love"] : List String).countP (isSelected selHome) : Int) * 10)) :=
  setRecommendations_stores_scaled_penalized_score selHome "S" ["Home", "Love"] (by decide)

/-- C1 counterexample: the `SetRecommendations` of src/country.go, also named
by the claim, stores 1 for a two-theme document with one selected theme,
not 20*1 - 2 = 18. -/
theorem country_setRecommendations_not_scaled :
    Country.SetRecommendations selHome "S" ["Home", "Love"] =
      .ok ({ selHome with Recommendations := [("S", 1)] }, 1) ∧
    ((1 : Int) ≠ 20 * 1 - 2) :=
  ⟨by rfl, by decide⟩

/-- C2 (amended): the pipeline returns the selected documents in catalog
order, not in the order `getTopNRecommendations` produced: the redaction
step preserves the `RuleID` sequence of the filter step, and that sequence
is a sublist of the catalog `RuleID` sequence. -/
theorem pipeline_catalog_order (documents : List CountryMusicDocument)
    (sel : UserSelections) :
    (filterDocumentsByRecommendations documents sel).map CountryMusicDocument.RuleID =
      (filterDocuments documents (getTopNRecommendations sel.Recommendations 3)).map
        CountryMusicDocument.RuleID ∧
    List.Sublist
      ((filterDocumentsByRecommendations documents sel).map CountryMusicDocument.RuleID)
      (documents.map CountryMusicDocument.RuleID) := by
  constructor
  · exact generateThemeUpdatedDocs_ruleIDs _ _
  · show List.Sublist ((generateThemeUpdatedDocs (filterDocuments documents
      (getTopNRecommendations sel.Recommendations 3)) sel).map CountryMusicDocument.RuleID) _
    rw [generateThemeUpdatedDocs_ruleIDs]
    exact (List.filter_sublist documents).map CountryMusicDocument.RuleID

/-- C2 counterexample: with catalog [A, B] and scores A=10, B=50, the
selector order is [B, A] but the pipeline returns [A, B]: the output is not
in the Selector order the claim states. -/
theorem pipeline_not_selector_order :
    getTopNRecommendations selC2.Recommendations 3 = ["B", "A"] ∧
    (filterDocumentsByRecommendations [docA, docB] selC2).map
      CountryMusicDocument.RuleID = ["A", "B"] ∧
    (["A", "B"] : List String) ≠ ["B", "A"] :=
  ⟨by decide, by decide, by decide⟩

/-- C3 (amended): `IsSongThemeMatch` and `SetRecommendations` return normally
exactly on theme lists drawn from the ten boolean field names; an unknown
name makes `GetField` return an error, which both callers turn into a panic
(see the counterexample for the abort). -/
theorem match_and_score_total_on_vocab (sel : UserSelections) (songId : String)
    (songThemes : List String) (hv : ∀ t ∈ songThemes, t ∈ themeVocab) :
    (∃ b, IsSongThemeMatch sel songId songThemes = .ok b) ∧
    (∃ r, SetRecommendations sel songId songThemes = .ok r) :=
  ⟨⟨_, isSongThemeMatch_vocab sel songId songThemes hv⟩,
   ⟨_, setRec_eq sel songId songThemes hv⟩⟩

/-- C3 witness: both calls return normally on a vocabulary theme list. -/
theorem match_and_score_total_on_vocab_witness :
    (∃ b, IsSongThemeMatch selHome "S" ["Home", "Love"] = .ok b) ∧
    (∃ r, SetRecommendations selHome "S" ["Home", "Love"] = .ok r) :=
  match_and_score_total_on_vocab selHome "S" ["Home", "Love"] (by decide)

/-- C3 counterexample: a theme name outside the vocabulary is not treated as
absent/false: `IsSongThemeMatch` aborts with the `GetField` error before
even looking at the selected theme `Home`, and `SetRecommendations` aborts
as well, so neither function is total. -/
theorem unknown_theme_aborts :
    IsSongThemeMatch selHome "S" ["Zebra", "Home"] =
      .error "field Zebra does not exist" ∧
    IsSongThemeMatch selHome "S" ["Home"] = .ok true ∧
    SetRecommendations selHome "S" ["Home", "Zebra"] =
      .error "field Zebra does not exist" :=
  ⟨by rfl, by rfl, by rfl⟩

/-- C4 (amended): `extractGrules` produces one rule per document with no
skip: a document whose themes all carry empty descriptions still yields a
rule (with an empty theme-argument list) in the generated text. -/
theorem extractGrules_rule_per_document (documents : List CountryMusicDocument)
    (d : CountryMusicDocument) (hd : d ∈ documents)
    (hempty : ∀ kv ∈ d.Themes, kv.2 = "") :
    (extractGrulesList documents).length = documents.length ∧
    ruleFor d ∈ extractGrulesList documents ∧
    themesOf d = [] := by
  refine ⟨by simp [extractGrulesList], List.mem_map_of_mem ruleFor hd, ?_⟩
  rw [themesOf, List.map_eq_nil_iff, List.filter_eq_nil_iff]
  intro kv hkv
  simp [hempty kv hkv]

/-- C4 witness: a one-document catalog whose document has only an
empty-description theme still compiles to one rule with no themes. -/
theorem extractGrules_rule_per_document_witness :
    (extractGrulesList [docEmptyThemes]).length = [docEmptyThemes].length ∧
    ruleFor docEmptyThemes ∈ extractGrulesList [docEmptyThemes] ∧
    themesOf docEmptyThemes = [] :=
  extractGrules_rule_per_document [docEmptyThemes] docEmptyThemes (by decide) (by decide)

/-- C4 counterexample: the claim says no rule is produced for a document
with no non-empty theme description; the compiler emits exactly one rule
for such a document and the joined rule text is non-empty. -/
theorem extractGrules_no_skip :
    docEmptyThemes.Themes.all (fun kv => kv.2 == "") = true ∧
    (extractGrulesList [docEmptyThemes]).length = 1 ∧
    extractGrules [docEmptyThemes] ≠ "" :=
  ⟨by decide, by rfl, by decide⟩

/-- C5 (amended): `getTopNRecommendations` returns key identifiers in
descending score order (the sorted entry sequence is pairwise descending);
the relative order of equal-score entries follows the map iteration
sequence, which Go does not tie to catalog insertion order — see the
counterexample. -/
theorem topn_descending (entries : List (String × Int)) (N : Nat) :
    getTopNRecommendations entries N =
      ((sortRecsDesc entries).take (min N entries.length)).map Prod.fst ∧
    (sortRecsDesc entries).Pairwise recDescRel ∧
    ((sortRecsDesc entries).map Prod.snd).Pairwise (fun a b => b ≤ a) := by
  refine ⟨?_, sorted_sortRecsDesc entries, ?_⟩
  · simp only [getTopNRecommendations, length_sortRecsDesc]
    congr 1
    congr 1
    split <;> omega
  · rw [List.pairwise_map]
    exact sorted_sortRecsDesc entries

/-- C5 counterexample: one score map, two legal Go iteration orders of the
same entries (they are a permutation of each other): with entry A inserted
first and tied with B on score 5, the iteration order starting with B makes
the selector rank B first — tie order is not the catalog insertion order
the claim states. -/
theorem topn_tie_order_not_catalog :
    List.Perm [("B", (5 : Int)), ("A", (5 : Int))] [("A", (5 : Int)), ("B", (5 : Int))] ∧
    getTopNRecommendations [("A", (5 : Int)), ("B", (5 : Int))] 2 = ["A", "B"] ∧
    getTopNRecommendations [("B", (5 : Int)), ("A", (5 : Int))] 2 = ["B", "A"] ∧
    (["B", "A"] : List String) ≠ ["A", "B"] :=
  ⟨by decide, by decide, by decide, by decide⟩

/-- C6: for every entry sequence of the score map and every requested count
N, `getTopNRecommendations` returns exactly min(N, number of entries)
identifiers; when fewer than N documents have scores, N is clamped and all
of them are returned, with no error path. -/
theorem topn_length_min (entries : List (String × Int)) (N : Nat) :
    (getTopNRecommendations entries N).length = min N entries.length := by
  simp only [getTopNRecommendations, List.length_map, List.length_take,
    length_sortRecsDesc]
  split <;> omega

/-- C7: `generateThemeUpdatedDocs` returns a document with exactly the same
theme keys in the same order, the five identifier/metadata fields unchanged,
and each value kept when the lowercased key is a selected vocabulary theme
and replaced by the empty string otherwise. -/
theorem generateThemeUpdatedDocs_redacts (sel : UserSelections)
    (doc : CountryMusicDocument) :
    ∃ d2, generateThemeUpdatedDocs [doc] sel = [d2] ∧
      d2.Themes.map Prod.fst = doc.Themes.map Prod.fst ∧
      d2.RuleID = doc.RuleID ∧ d2.Artist = doc.Artist ∧ d2.Title = doc.Title ∧
      d2.LyricQuote = doc.LyricQuote ∧ d2.VideoLink = doc.VideoLink ∧
      ∀ kv ∈ doc.Themes,
        (kv.1, if themeKeys sel kv.1.toLower then kv.2 else "") ∈ d2.Themes := by
  refine ⟨_, rfl, updateThemes_fst sel doc.Themes, rfl, rfl, rfl, rfl, rfl, ?_⟩
  intro kv h
  exact updateThemes_mem sel doc.Themes kv h

/-- C7 witness: redaction of a concrete document with a selected
differently-cased theme and an unknown theme. -/
theorem generateThemeUpdatedDocs_redacts_witness :
    ∃ d2, generateThemeUpdatedDocs [docW] selHome = [d2] ∧
      d2.Themes.map Prod.fst = docW.Themes.map Prod.fst ∧
      d2.RuleID = docW.RuleID ∧ d2.Artist = docW.Artist ∧ d2.Title = docW.Title ∧
      d2.LyricQuote = docW.LyricQuote ∧ d2.VideoLink = docW.VideoLink ∧
      ∀ kv ∈ docW.Themes,
        (kv.1, if themeKeys selHome kv.1.toLower then kv.2 else "") ∈ d2.Themes :=
  generateThemeUpdatedDocs_redacts selHome docW

/-- C8: redaction is idempotent: applying `generateThemeUpdatedDocs` a second
time with the same `UserSelections` to its own output yields that output. -/
theorem generateThemeUpdatedDocs_idempotent (docs : List CountryMusicDocument)
    (sel : UserSelections) :
    generateThemeUpdatedDocs (generateThemeUpdatedDocs docs sel) sel =
      generateThemeUpdatedDocs docs sel := by
  induction docs with
  | nil => rfl
  | cons d rest ih => simp [generateThemeUpdatedDocs, updateThemes_idem, ih]

/-- C9 (amended): when the themes passed to the scorer are pairwise distinct
vocabulary field names and the firing condition `IsSongThemeMatch` holds,
the stored score `20*matchCount - themeCount` is at least 10 (matchCount at
least 1, themeCount at most 10). Without distinctness the bound fails; see
the counterexample. -/
theorem score_lower_bound_nodup (sel : UserSelections) (songId : String)
    (songThemes : List String) (hv : ∀ t ∈ songThemes, t ∈ themeVocab)
    (hnd : songThemes.Nodup)
    (hm : IsSongThemeMatch sel songId songThemes = .ok true) :
    SetRecommendations sel songId songThemes =
      .ok ({ sel with Recommendations :=
               updateAssoc sel.Recommendations songId (scoreOf sel songThemes) },
           scoreOf sel songThemes) ∧
    10 ≤ scoreOf sel songThemes := by
  refine ⟨setRec_eq sel songId songThemes hv, ?_⟩
  rw [isSongThemeMatch_vocab sel songId songThemes hv] at hm
  simp only [Except.ok.injEq] at hm
  have hpos : 0 < songThemes.countP (isSelected sel) := by
    rw [List.countP_pos_iff]
    rcases List.any_eq_true.mp hm with ⟨a, ha, hpa⟩
    exact ⟨a, ha, hpa⟩
  have hlen : songThemes.length ≤ 10 := by
    have hsub : songThemes ⊆ themeVocab := fun a ha => hv a ha
    have hle := (List.subperm_of_subset hnd hsub).length_le
    simpa [themeVocab] using hle
  rw [scoreOf]
  omega

/-- C9 witness: a distinct two-theme vocabulary list with one selected theme
fires and stores 18, at least 10. -/
theorem score_lower_bound_nodup_witness :
    SetRecommendations selHome "S" ["Home", "Love"] =
      .ok ({ selHome with Recommendations :=
               updateAssoc selHome.Recommendations "S" (scoreOf selHome ["Home", "Love"]) },
           scoreOf selHome ["Home", "Love"]) ∧
    10 ≤ scoreOf selHome ["Home", "Love"] :=
  score_lower_bound_nodup selHome "S" ["Home", "Love"] (by decide) (by decide) (by rfl)

/-- C9 counterexample: a theme list made only of vocabulary field names (so
the stated precondition holds and the rule fires) on which the completed
call stores -2: the stored value is neither at least 10 nor positive,
because repeated names make themeCount exceed 10. -/
theorem score_not_bounded_below :
    c9Themes.all (fun t => themeVocab.contains t) = true ∧
    IsSongThemeMatch selHome "S" c9Themes = .ok true ∧
    SetRecommendations selHome "S" c9Themes =
      .ok ({ selHome with Recommendations := [("S", -2)] }, -2) ∧
    ¬ (10 ≤ (-2 : Int)) ∧ ¬ (0 < (-2 : Int)) :=
  ⟨by decide, by rfl, by rfl, by decide, by decide⟩

/-- C10: `extractGrules` splices each document title verbatim (unescaped)
between two double quotes into the rule text; for a quote-free title the
first string literal of the rule text is exactly the title, while for a
title containing a double quote the literal is cut short at the embedded
quote, so the generated GRL text no longer carries the title as one string
literal and the rule builder cannot parse it (handleRequest then panics on
the build error). -/
theorem extractGrules_title_verbatim :
    (∀ d : CountryMusicDocument,
        List.IsInfix ("\"" ++ d.Title ++ "\"").data (ruleFor d).data) ∧
    quotedSegment (ruleFor goodTitleDoc) = goodTitleDoc.Title ∧
    badTitleDoc.Title = "He said \"Hi\"" ∧
    quotedSegment (ruleFor badTitleDoc) = "He said " := by
  refine ⟨?_, by rfl, by rfl, by rfl⟩
  intro d
  refine ⟨(ruleHeaderPre d).data, (ruleBodyPost d).data, ?_⟩
  simp [ruleFor, String.data_append, List.append_assoc]
